import Mathlib

/-!
Verification development for the newrelic-mcp repository.

The Python sources (src/newrelic_mcp/client.py and src/newrelic_mcp/server.py)
are shallowly embedded below.  Conventions used throughout:

* Python floats are modelled as rationals (`ℚ`).
* Python `round(x, 2)` (bankers rounding on the scaled value) is modelled by
  `round2`, built from `pyRound`, a round-half-to-even on `ℚ`.
* JSON values that may occupy a dict slot are modelled by `PyVal`
  (a number, a string that parses as a float, an arbitrary string, or null).
* Code that can raise is modelled with `Except PyErr`; `.get(k, d)` accesses
  are modelled with `Option.getD`, raising accesses with explicit matches.
* Network / HTTP responses of the access layer are modelled by `Resp α`:
  an empty dict (falsy), an `error`-keyed dict, or a decoded payload.
-/

/-- Python exception kinds that the embedded code can raise. -/
inductive PyErr
  | keyError
  | indexError
  | typeError
  | valueError
  | attributeError
  | other (msg : String)
deriving DecidableEq, Repr

/-- A JSON value sitting in a dict slot: a number, a numeric string
(a string Python `float` would parse, carrying its numeric value),
a non-numeric string, or null. -/
inductive PyVal
  | num (q : ℚ)
  | numStr (q : ℚ)
  | str (s : String)
  | null
deriving DecidableEq, Repr

/-- Python `float(v)`: numbers and numeric strings convert; other strings raise
`ValueError`; `None` raises `TypeError`. -/
def pyFloat : PyVal → Except PyErr ℚ
  | .num q => .ok q
  | .numStr q => .ok q
  | .str _ => .error .valueError
  | .null => .error .typeError

/-- Truncation of a rational toward zero, as Python `int()` does on a float. -/
def ratTrunc (q : ℚ) : ℤ := if q < 0 then -⌊-q⌋ else ⌊q⌋

/-- Python `int(v)` as used on numeric query results: numbers truncate toward
zero; strings raise (`int` does not accept float-formatted strings); `None`
raises `TypeError`. -/
def pyInt : PyVal → Except PyErr ℤ
  | .num q => .ok (ratTrunc q)
  | .numStr _ => .error .valueError
  | .str _ => .error .valueError
  | .null => .error .typeError

/-- Python `round(q)` to an integer: round half to even. -/
def pyRound (q : ℚ) : ℤ :=
  if q - ⌊q⌋ = 1/2 then (if ⌊q⌋ % 2 = 0 then ⌊q⌋ else ⌊q⌋ + 1) else round q

/-- Python `round(q, 2)`. -/
def round2 (q : ℚ) : ℚ := (pyRound (q * 100) : ℚ) / 100

/-- List indexing `l[i]`, raising `IndexError` out of range. -/
def pyIdx (l : List α) (i : Nat) : Except PyErr α :=
  match l[i]? with
  | some a => .ok a
  | none => .error .indexError

/-- A decoded response from the REST / Insights access layer: an empty dict
(falsy), a dict carrying an `error` key (the transport-failure shape), or a
decoded payload without an `error` key. -/
inductive Resp (α : Type)
  | emptyDict
  | errorDict (msg : String)
  | payload (p : α)
deriving DecidableEq, Repr

/- ### Rounding lemmas -/

theorem pyRound_abs_sub (q : ℚ) : |(pyRound q : ℚ) - q| ≤ 1/2 := by
  unfold pyRound
  split
  · rename_i h
    split
    · rw [abs_le]
      constructor <;> linarith
    · push_cast
      rw [abs_le]
      constructor <;> linarith
  · have := abs_sub_round q
    rw [abs_sub_comm] at this
    exact this

theorem round2_abs_sub (q : ℚ) : |round2 q - q| ≤ 1/200 := by
  unfold round2
  have h := pyRound_abs_sub (q * 100)
  have he : (pyRound (q * 100) : ℚ) / 100 - q = ((pyRound (q * 100) : ℚ) - q * 100) / 100 := by
    ring
  rw [he, abs_div, abs_of_pos (show (0:ℚ) < 100 by norm_num),
    div_le_iff₀ (show (0:ℚ) < 100 by norm_num)]
  calc |(pyRound (q * 100) : ℚ) - q * 100| ≤ 1/2 := h
    _ = 1/200 * 100 := by norm_num

theorem pyRound_nonneg {q : ℚ} (h : 0 ≤ q) : 0 ≤ pyRound q := by
  unfold pyRound
  have hf : (0:ℤ) ≤ ⌊q⌋ := Int.le_floor.mpr (by exact_mod_cast h)
  split
  · split
    · exact hf
    · omega
  · rw [round_eq]
    apply Int.le_floor.mpr
    push_cast
    linarith

theorem round2_nonneg {q : ℚ} (h : 0 ≤ q) : 0 ≤ round2 q := by
  unfold round2
  apply div_nonneg _ (by norm_num)
  exact_mod_cast pyRound_nonneg (by positivity)

/- ### Identifier resolver (client.py `find_newrelic_application_id`) -/

/-- Outcome of one `acompletion` generation call: the call raised, or it
returned a response whose `choices[i].message.content` values are listed
(`none` models a null content). -/
inductive GenOutcome
  | fail (e : PyErr)
  | resp (choices : List (Option String))
deriving DecidableEq, Repr

/-- Mutable state of the resolver: the `_application_id_cache` dict (an
insertion-ordered association list; the code only ever inserts missing keys)
plus an instrumentation counter of generation calls issued so far, which
also indexes into the generation oracle. -/
structure ResolverState where
  cache : List (String × Option String)
  genCalls : Nat
deriving DecidableEq, Repr

/-- Lookup of a name in the cache dict. -/
def cacheLookup (name : String) : List (String × Option String) → Option (Option String)
  | [] => none
  | (k, v) :: rest => if k = name then some v else cacheLookup name rest

/-- Resolver state at process start: empty cache, no generation calls issued. -/
def initialResolverState : ResolverState := { cache := [], genCalls := 0 }

/-- Embedding of `find_newrelic_application_id` (client.py:113-143).
`g` is the generation-model oracle, indexed by how many generation calls were
issued before.  A cache hit returns the cached value with no generation call.
On a miss the generation call is issued; a raising call or an empty
`choices` list propagates the exception (cache unchanged); otherwise
`choices[0].message.content` is cached verbatim and returned. -/
def find_newrelic_application_id (g : Nat → GenOutcome) (s : ResolverState)
    (name : String) : Except PyErr (Option String) × ResolverState :=
  match cacheLookup name s.cache with
  | some v => (.ok v, s)
  | none =>
    match g s.genCalls with
    | .fail e => (.error e, { cache := s.cache, genCalls := s.genCalls + 1 })
    | .resp [] => (.error .indexError, { cache := s.cache, genCalls := s.genCalls + 1 })
    | .resp (c :: _) =>
        (.ok c, { cache := (name, c) :: s.cache, genCalls := s.genCalls + 1 })

/-- Run a sequence of resolution calls, returning the final state and, for
each call in order, the name it was made with and whether it issued a
generation call (i.e. missed the cache). -/
def runTrace (g : Nat → GenOutcome) (s : ResolverState) :
    List String → ResolverState × List (String × Bool)
  | [] => (s, [])
  | m :: ms =>
      ((runTrace g (find_newrelic_application_id g s m).2 ms).1,
       (m, (cacheLookup m s.cache).isNone) ::
         (runTrace g (find_newrelic_application_id g s m).2 ms).2)

/-- Number of generation calls issued for name `n` in a trace. -/
def genCallsFor (tr : List (String × Bool)) (n : String) : Nat :=
  match tr with
  | [] => 0
  | (m, b) :: rest => (if m = n ∧ b = true then 1 else 0) + genCallsFor rest n

theorem lookup_after_ok {g : Nat → GenOutcome} {s s1 : ResolverState}
    {n : String} {v : Option String}
    (h : find_newrelic_application_id g s n = (.ok v, s1)) :
    cacheLookup n s1.cache = some v := by
  unfold find_newrelic_application_id at h
  rcases hc : cacheLookup n s.cache with _ | w
  · rw [hc] at h
    rcases hg : g s.genCalls with e | cs
    · rw [hg] at h; exact absurd (congrArg Prod.fst h) (by simp)
    · rcases cs with _ | ⟨c, rest⟩
      · rw [hg] at h; exact absurd (congrArg Prod.fst h) (by simp)
      · rw [hg] at h
        have h1 := congrArg Prod.fst h
        have h2 := congrArg Prod.snd h
        simp at h1 h2
        subst h1
        rw [← h2]
        simp [cacheLookup]
  · rw [hc] at h
    have h1 := congrArg Prod.fst h
    have h2 := congrArg Prod.snd h
    simp at h1 h2
    subst h1
    rw [← h2]
    exact hc

theorem find_preserves_entry {g : Nat → GenOutcome} {s : ResolverState}
    {n : String} {v : Option String} (m : String)
    (h : cacheLookup n s.cache = some v) :
    cacheLookup n (find_newrelic_application_id g s m).2.cache = some v := by
  unfold find_newrelic_application_id
  rcases hc : cacheLookup m s.cache with _ | w
  · rcases hg : g s.genCalls with e | cs
    · exact h
    · rcases cs with _ | ⟨c, rest⟩
      · exact h
      · have hne : m ≠ n := by
          intro he
          rw [he, h] at hc
          exact absurd hc (by simp)
        simp [cacheLookup, hne]
        exact h
  · exact h

theorem run_preserves_entry {g : Nat → GenOutcome} {n : String} {v : Option String} :
    ∀ (ms : List String) (s : ResolverState), cacheLookup n s.cache = some v →
    cacheLookup n (runTrace g s ms).1.cache = some v := by
  intro ms
  induction ms with
  | nil => intro s h; exact h
  | cons m rest ih =>
      intro s h
      unfold runTrace
      exact ih _ (find_preserves_entry m h)

theorem find_on_hit {g : Nat → GenOutcome} {s : ResolverState}
    {n : String} {v : Option String} (h : cacheLookup n s.cache = some v) :
    find_newrelic_application_id g s n = (.ok v, s) := by
  unfold find_newrelic_application_id
  rw [h]

theorem genCallsFor_zero_of_cached {g : Nat → GenOutcome} {n : String} {v : Option String} :
    ∀ (ms : List String) (s : ResolverState), cacheLookup n s.cache = some v →
    genCallsFor (runTrace g s ms).2 n = 0 := by
  intro ms
  induction ms with
  | nil => intro s _; rfl
  | cons m rest ih =>
      intro s h
      have hstep := ih ((find_newrelic_application_id g s m).2) (find_preserves_entry m h)
      show (if m = n ∧ ((cacheLookup m s.cache).isNone = true) then 1 else 0)
          + genCallsFor (runTrace g (find_newrelic_application_id g s m).2 rest).2 n = 0
      rw [hstep]
      by_cases hm : m = n
      · subst hm
        rw [h]
        simp
      · simp [hm]

theorem cached_after_miss_success {g : Nat → GenOutcome}
    (hg : ∀ k, ∃ c cs, g k = .resp (c :: cs)) (s : ResolverState) (n : String)
    (h : cacheLookup n s.cache = none) :
    ∃ w, cacheLookup n (find_newrelic_application_id g s n).2.cache = some w := by
  obtain ⟨c, cs, hgc⟩ := hg s.genCalls
  refine ⟨c, ?_⟩
  unfold find_newrelic_application_id
  rw [h, hgc]
  simp [cacheLookup]

theorem genCallsFor_le_one {g : Nat → GenOutcome}
    (hg : ∀ k, ∃ c cs, g k = .resp (c :: cs)) (n : String) :
    ∀ (ms : List String) (s : ResolverState), genCallsFor (runTrace g s ms).2 n ≤ 1 := by
  intro ms
  induction ms with
  | nil => intro s; simp [runTrace, genCallsFor]
  | cons m rest ih =>
      intro s
      show (if m = n ∧ ((cacheLookup m s.cache).isNone = true) then 1 else 0)
          + genCallsFor (runTrace g (find_newrelic_application_id g s m).2 rest).2 n ≤ 1
      by_cases hm : m = n
      · subst hm
        rcases hc : cacheLookup m s.cache with _ | w
        · obtain ⟨w, hw⟩ := cached_after_miss_success hg s m hc
          have hz := genCallsFor_zero_of_cached (g := g) rest _ hw
          rw [hz]
          simp
        · have hz := genCallsFor_zero_of_cached (g := g) rest _
            (find_preserves_entry (g := g) m hc)
          rw [hz]
          simp
      · have hle := ih ((find_newrelic_application_id g s m).2)
        simp only [hm, false_and, if_false, Nat.zero_add]
        exact hle

/-- Claim C1: after a first completed call of `find_newrelic_application_id`
with a name, every later call with the same name (after any interleaved calls
with arbitrary names) returns the cached identifier of the first call and
leaves the state untouched (so no generation or network call is issued), and
over a whole process run from the initial state in which every generation
call completes, at most one generation call is issued per distinct name. -/
theorem claim_C1_cache_idempotence (g : Nat → GenOutcome)
    (hg : ∀ k, ∃ c cs, g k = GenOutcome.resp (c :: cs))
    (s0 : ResolverState) (n : String) (id1 : Option String) (s1 : ResolverState)
    (hfirst : find_newrelic_application_id g s0 n = (.ok id1, s1)) :
    (∀ names, find_newrelic_application_id g (runTrace g s1 names).1 n
        = (.ok id1, (runTrace g s1 names).1)) ∧
    (∀ names, genCallsFor (runTrace g initialResolverState names).2 n ≤ 1) := by
  constructor
  · intro names
    have h1 : cacheLookup n s1.cache = some id1 := lookup_after_ok hfirst
    have h2 := run_preserves_entry (g := g) names s1 h1
    exact find_on_hit h2
  · intro names
    exact genCallsFor_le_one hg n names initialResolverState

/-- Oracle for the C1 witness: every generation call returns id 42. -/
def gWitC1 : Nat → GenOutcome := fun _ => .resp [some "42"]

/-- Witness for claim C1 at a concrete run. -/
theorem claim_C1_witness :
    find_newrelic_application_id gWitC1
        (runTrace gWitC1 { cache := [("app", some "42")], genCalls := 1 } ["x", "app"]).1 "app"
      = (.ok (some "42"),
         (runTrace gWitC1 { cache := [("app", some "42")], genCalls := 1 } ["x", "app"]).1) ∧
    genCallsFor (runTrace gWitC1 initialResolverState ["app", "x", "app"]).2 "app" ≤ 1 := by
  have hg : ∀ k, ∃ c cs, gWitC1 k = GenOutcome.resp (c :: cs) :=
    fun _ => ⟨some "42", [], rfl⟩
  have hfirst : find_newrelic_application_id gWitC1 initialResolverState "app"
      = (.ok (some "42"), { cache := [("app", some "42")], genCalls := 1 }) := by
    with_unfolding_all rfl
  have h := claim_C1_cache_idempotence gWitC1 hg initialResolverState "app"
    (some "42") { cache := [("app", some "42")], genCalls := 1 } hfirst
  exact ⟨h.1 ["x", "app"], h.2 ["app", "x", "app"]⟩

/-- Oracle returning one choice with empty content. -/
def gEmptyContent : Nat → GenOutcome := fun _ => .resp [some ""]

/-- Counterexample to claim C7: when the generation call completes with empty
content, `find_newrelic_application_id` does return a value — the empty
identifier — and caches it, contradicting the claim that the failure
propagates and nothing is returned or cached. -/
theorem claim_C7_counterexample :
    find_newrelic_application_id gEmptyContent initialResolverState "app"
      = (.ok (some ""), { cache := [("app", some "")], genCalls := 1 }) ∧
    cacheLookup "app"
        (find_newrelic_application_id gEmptyContent initialResolverState "app").2.cache
      = some (some "") := by
  constructor
  · with_unfolding_all rfl
  · with_unfolding_all rfl

/-- Claim C7 as amended: on a cache miss, if the generation call raises, or
completes with an empty `choices` list (so that reading the first choice
raises `IndexError`), the exception propagates uncaught and the cache is
unchanged, nothing being stored; but a completed call with a first choice is
cached and returned verbatim, even when its content is empty or null. -/
theorem claim_C7_generation_failure (g : Nat → GenOutcome) (s : ResolverState)
    (n : String) (hmiss : cacheLookup n s.cache = none) :
    (∀ e, g s.genCalls = .fail e →
      find_newrelic_application_id g s n
        = (.error e, { cache := s.cache, genCalls := s.genCalls + 1 })) ∧
    (g s.genCalls = .resp [] →
      find_newrelic_application_id g s n
        = (.error .indexError, { cache := s.cache, genCalls := s.genCalls + 1 })) ∧
    (∀ c cs, g s.genCalls = .resp (c :: cs) →
      find_newrelic_application_id g s n
        = (.ok c, { cache := (n, c) :: s.cache, genCalls := s.genCalls + 1 })) := by
  refine ⟨?_, ?_, ?_⟩
  · intro e hg
    unfold find_newrelic_application_id
    rw [hmiss, hg]
  · intro hg
    unfold find_newrelic_application_id
    rw [hmiss, hg]
  · intro c cs hg
    unfold find_newrelic_application_id
    rw [hmiss, hg]

/-- Oracle for the C7 witness whose single generation call raises. -/
def gFailWit : Nat → GenOutcome := fun _ => .fail (.other "boom")

/-- Witness for the amended claim C7 at a concrete failing generation call. -/
theorem claim_C7_witness :
    cacheLookup "app" initialResolverState.cache = none ∧
    find_newrelic_application_id gFailWit initialResolverState "app"
      = (.error (.other "boom"), { cache := [], genCalls := 1 }) := by
  refine ⟨rfl, ?_⟩
  exact (claim_C7_generation_failure gFailWit initialResolverState "app" rfl).1
    (.other "boom") rfl

/- ### Slow transactions (client.py / server.py `get_slow_transactions`) -/

/-- One entry of a slow-transaction facet `results` array; `.get` is used with
the keys `sum`, `result` and `count` (defaults apply when a key is absent). -/
structure TxnEntry where
  sum : Option PyVal
  result : Option PyVal
  count : Option PyVal
deriving DecidableEq, Repr

/-- A raw facet of the slow-transactions query.  `facet["name"]` and
`facet["results"]` are raising accesses, so an absent key is a `KeyError`. -/
structure TxnFacet where
  name : Option PyVal
  results : Option (List TxnEntry)
deriving DecidableEq, Repr

/-- A shaped transaction summary. -/
structure TxnSummary where
  name : PyVal
  total_duration : ℚ
  avg_duration : String
  min_duration : String
  max_duration : String
  call_count : ℤ
  error_rate : ℚ
  throughput : ℚ
deriving DecidableEq, Repr

/-- The inner helper `format_ms`: integer-rounded milliseconds as a string. -/
def format_ms (value : ℚ) : String := toString (pyRound value) ++ " ms"

/-- Extraction of one facet into a `TxnSummary`, following the source order of
raising accesses: `facet["name"]`, `facet["results"]`, the three duration
reads at indices 1-3, then the dict literal reads at indices 0, 4, 5, 6. -/
def extractTransaction (f : TxnFacet) : Except PyErr TxnSummary := do
  let nameRaw ← match f.name with
    | some v => Except.ok v
    | none => Except.error PyErr.keyError
  let results ← match f.results with
    | some rs => Except.ok rs
    | none => Except.error PyErr.keyError
  let e1 ← pyIdx results 1
  let avg_ms ← pyFloat (e1.result.getD (.num 0))
  let e2 ← pyIdx results 2
  let min_ms ← pyFloat (e2.result.getD (.num 0))
  let e3 ← pyIdx results 3
  let max_ms ← pyFloat (e3.result.getD (.num 0))
  let e0 ← pyIdx results 0
  let total ← pyFloat (e0.sum.getD (.num 0))
  let e4 ← pyIdx results 4
  let cc ← pyInt (e4.count.getD (.num 0))
  let e5 ← pyIdx results 5
  let er ← pyFloat (e5.result.getD (.num 0))
  let e6 ← pyIdx results 6
  let th ← pyFloat (e6.result.getD (.num 0))
  return { name := nameRaw,
           total_duration := round2 total,
           avg_duration := format_ms avg_ms,
           min_duration := format_ms min_ms,
           max_duration := format_ms max_ms,
           call_count := cc,
           error_rate := round2 er,
           throughput := round2 th }

/-- Return value of `get_slow_transactions`: either the transport-error dict
or the `transactions` dict. -/
inductive SlowOutcome
  | errorDict (msg : String)
  | transactions (ts : List TxnSummary)
deriving DecidableEq, Repr

/-- The per-item `try`/`except` of a shaping loop: a raising extraction is
skipped, a completed one is kept. -/
def skipOnErr {α : Type} : Except PyErr α → Option α
  | .ok a => some a
  | .error _ => none

theorem skipOnErr_ok {α : Type} (a : α) : skipOnErr (.ok a) = some a := rfl

theorem skipOnErr_error {α : Type} (e : PyErr) :
    skipOnErr (Except.error e) = (none : Option α) := rfl

/-- Embedding of `get_slow_transactions` (client.py:167-222, server.py:166-222).
A falsy or `error`-keyed response short-circuits to the error dict; otherwise
each facet is extracted, a facet raising during extraction being skipped with
a warning (the per-facet `try`/`except`); an absent `facets` key yields an
empty list. -/
def get_slow_transactions (resp : Resp (Option (List TxnFacet))) : SlowOutcome :=
  match resp with
  | .emptyDict => .errorDict "Failed to fetch slow transactions"
  | .errorDict _ => .errorDict "Failed to fetch slow transactions"
  | .payload facetsOpt =>
      .transactions ((facetsOpt.getD []).filterMap
        (fun f => skipOnErr (extractTransaction f)))

theorem filterMap_extract_all_ok {l : List TxnFacet}
    (h : ∀ f ∈ l, ∃ t, extractTransaction f = .ok t) :
    (l.filterMap (fun f => skipOnErr (extractTransaction f))).length = l.length := by
  induction l with
  | nil => rfl
  | cons f rest ih =>
      obtain ⟨t, ht⟩ := h f (by simp)
      have hrest := ih (fun f2 hf2 => h f2 (by simp [hf2]))
      simp only [List.filterMap_cons, ht, skipOnErr_ok, List.length_cons, hrest]

/-- Claim C8: a facet list with one malformed entry (whose field extraction
raises) among N well-formed entries shapes to exactly N transaction
summaries; the malformed facet is dropped and the call returns the normal
`transactions` dict, raising no exception. -/
theorem claim_C8_partial_failure (pre post : List TxnFacet) (bad : TxnFacet) (e : PyErr)
    (hpre : ∀ f ∈ pre, ∃ t, extractTransaction f = .ok t)
    (hpost : ∀ f ∈ post, ∃ t, extractTransaction f = .ok t)
    (hbad : extractTransaction bad = .error e) :
    ∃ ts, get_slow_transactions (.payload (some (pre ++ bad :: post)))
        = .transactions ts ∧ ts.length = pre.length + post.length := by
  refine ⟨_, rfl, ?_⟩
  simp only [Option.getD_some, List.filterMap_append, List.filterMap_cons, hbad,
    skipOnErr_error, List.length_append]
  rw [filterMap_extract_all_ok hpre, filterMap_extract_all_ok hpost]

/-- A well-formed slow-transaction facet used by the C8 witness. -/
def goodTxnFacet : TxnFacet :=
  { name := some (.str "T1"),
    results :=
      some (List.replicate 7 { sum := some (.num 1), result := some (.num 2),
                               count := some (.num 3) }) }

/-- A malformed slow-transaction facet (missing `name` key) used by the C8
witness. -/
def badTxnFacet : TxnFacet := { name := none, results := none }

/-- Witness for claim C8: one malformed facet among two well-formed ones
yields exactly two summaries. -/
theorem claim_C8_witness :
    ∃ ts, get_slow_transactions
        (.payload (some ([goodTxnFacet] ++ badTxnFacet :: [goodTxnFacet])))
        = .transactions ts ∧ ts.length = [goodTxnFacet].length + [goodTxnFacet].length := by
  refine claim_C8_partial_failure [goodTxnFacet] [goodTxnFacet] badTxnFacet .keyError
    ?_ ?_ (by with_unfolding_all rfl)
  · intro f hf
    rw [List.mem_singleton] at hf
    subst hf
    exact ⟨_, by with_unfolding_all rfl⟩
  · intro f hf
    rw [List.mem_singleton] at hf
    subst hf
    exact ⟨_, by with_unfolding_all rfl⟩

/- ### Top database operations (client.py / server.py `get_top_database_operations`) -/

/-- One entry of a database-operation facet `results` array; `.get` is used
with the keys `result` and `average`. -/
structure DBEntry where
  result : Option PyVal
  average : Option PyVal
deriving DecidableEq, Repr

/-- A raw facet of the top-database-operations query.  The facet name tuple
may sit under `name` or `facet`; its components may be null. `results` is a
raising access (`facet["results"]`). -/
structure DBFacet where
  nameKey : Option (List (Option String))
  facetKey : Option (List (Option String))
  results : Option (List DBEntry)
deriving DecidableEq, Repr

/-- A shaped database-operation summary. -/
structure DBOp where
  datastoreType : String
  table : String
  operation : String
  total_time_per_minute : ℚ
  avg_query_time_ms : ℚ
  throughput_ops_per_min : ℚ
  query_latency : Bool
deriving DecidableEq, Repr

/-- Python `a or b` on two optional lists: a present non-empty list is taken,
otherwise the second operand. -/
def pyOrL {α : Type} (a b : Option (List α)) : Option (List α) :=
  match a with
  | some l => if l.isEmpty then b else some l
  | none => b

/-- Python `x or "unknown"` on a possibly-null name component. -/
def orUnknown : Option String → String
  | none => "unknown"
  | some s => if s = "" then "unknown" else s

/-- Extraction of one database-operation facet (the loop body at
client.py:247-277).  A missing/short name tuple is skipped by the length
guard; a raising access inside the `try` (missing `results` key, short
results array, non-numeric value) is skipped by the `except`.  The
`query_latency` flag compares the raw average against 8.0 before any
rounding; the reported `avg_query_time_ms` is the rounded value. -/
def extractDBOp (f : DBFacet) : Option DBOp :=
  match pyOrL f.nameKey f.facetKey with
  | some [d, t, o] =>
    match f.results with
    | some (e0 :: e1 :: e2 :: _) =>
      match pyFloat (e1.average.getD (.num 0)) with
      | .ok avg =>
        match pyFloat (e0.result.getD (.num 0)), pyFloat (e2.result.getD (.num 0)) with
        | .ok total, .ok th =>
            some { datastoreType := orUnknown d,
                   table := orUnknown t,
                   operation := orUnknown o,
                   total_time_per_minute := round2 total,
                   avg_query_time_ms := round2 avg,
                   throughput_ops_per_min := round2 th,
                   query_latency := decide (8 < avg) }
        | _, _ => none
      | .error _ => none
    | _ => none
  | _ => none

/-- Return value of `get_top_database_operations`: either the transport-error
dict or the single-key dict holding the operation list. -/
inductive TopDBOutcome
  | errorDict (msg : String)
  | ok (database_operations : List DBOp)
deriving DecidableEq, Repr

/-- Embedding of `get_top_database_operations` (client.py:224-285,
server.py:224-285): transport check, per-facet extraction with skip, then a
stable sort by `avg_query_time_ms` descending. -/
def get_top_database_operations (resp : Resp (Option (List DBFacet))) : TopDBOutcome :=
  match resp with
  | .emptyDict => .errorDict "Failed to fetch top database operations"
  | .errorDict _ => .errorDict "Failed to fetch top database operations"
  | .payload facetsOpt =>
      .ok (((facetsOpt.getD []).filterMap extractDBOp).mergeSort
        (fun a b => decide (b.avg_query_time_ms ≤ a.avg_query_time_ms)))

/-- The raw (pre-rounding) average-time value of a facet, read from the same
slot the extraction reads (`facet["results"][1].get("average", 0.0)`). -/
def dbFacetAvgRaw (f : DBFacet) : Except PyErr ℚ :=
  match f.results with
  | some (_ :: e1 :: _) => pyFloat (e1.average.getD (.num 0))
  | _ => .error .keyError

theorem extractDBOp_latency {f : DBFacet} {op : DBOp}
    (h : extractDBOp f = some op) :
    ∃ a, dbFacetAvgRaw f = .ok a ∧ (op.query_latency = true ↔ 8 < a) ∧
      op.avg_query_time_ms = round2 a := by
  unfold extractDBOp at h
  split at h
  · rename_i d t o hname
    split at h
    · rename_i e0 e1 e2 rest hres
      split at h
      · rename_i avg havg
        split at h
        · rename_i total th htotal hth
          have h2 := Option.some.inj h
          refine ⟨avg, ?_, ?_, ?_⟩
          · unfold dbFacetAvgRaw
            rw [hres]
            exact havg
          · rw [← h2]
            simp
          · rw [← h2]
        · exact absurd h (by simp)
      · exact absurd h (by simp)
    · exact absurd h (by simp)
  · exact absurd h (by simp)

/-- Claim C5 as amended: for every summary produced by
`get_top_database_operations`, the `query_latency` flag is true iff the raw
(pre-rounding) average query time read from the facet is strictly greater
than 8.0, while the reported `avg_query_time_ms` field is that raw value
rounded to 2 decimals; the flag can therefore disagree with a strict
comparison of the reported field against 8.0 when the raw value lies within
half a rounding step above 8.0. -/
theorem claim_C5_latency_flag (resp : Resp (Option (List DBFacet)))
    (ops : List DBOp) (op : DBOp)
    (h1 : get_top_database_operations resp = .ok ops) (h2 : op ∈ ops) :
    ∃ fo f, resp = Resp.payload fo ∧ f ∈ fo.getD [] ∧ extractDBOp f = some op ∧
      ∃ a, dbFacetAvgRaw f = .ok a ∧ (op.query_latency = true ↔ 8 < a) ∧
        op.avg_query_time_ms = round2 a := by
  match resp with
  | .emptyDict => exact absurd h1 (by simp [get_top_database_operations])
  | .errorDict msg => exact absurd h1 (by simp [get_top_database_operations])
  | .payload fo =>
      unfold get_top_database_operations at h1
      rw [TopDBOutcome.ok.injEq] at h1
      rw [← h1] at h2
      rw [List.mem_mergeSort, List.mem_filterMap] at h2
      obtain ⟨f, hf, hex⟩ := h2
      exact ⟨fo, f, rfl, hf, hex, extractDBOp_latency hex⟩

/-- Counterexample facet for claim C5: raw average 8.004 ms. -/
def cxDBFacet : DBFacet :=
  { nameKey := some [some "MySQL", some "users", some "select"],
    facetKey := none,
    results := some [{ result := some (.num 1000), average := none },
                     { result := none, average := some (.num (8004/1000)) },
                     { result := some (.num 5), average := none }] }

/-- The summary the code produces from `cxDBFacet`. -/
def cxDBOp : DBOp :=
  { datastoreType := "MySQL", table := "users", operation := "select",
    total_time_per_minute := 1000, avg_query_time_ms := 8,
    throughput_ops_per_min := 5, query_latency := true }

/-- Counterexample to claim C5 as stated: with a raw average of 8.004 ms the
produced summary has `query_latency = true` but its reported
`avg_query_time_ms` is 8.0, which is not strictly greater than 8.0 — so the
flag is not equivalent to a strict comparison of the reported field. -/
theorem claim_C5_counterexample :
    get_top_database_operations (Resp.payload (some [cxDBFacet])) = .ok [cxDBOp] ∧
    cxDBOp.query_latency = true ∧ ¬ (8 < cxDBOp.avg_query_time_ms) := by
  refine ⟨?_, rfl, ?_⟩
  · with_unfolding_all rfl
  · with_unfolding_all decide

/-- Witness facet for the amended claim C5 (raw average 10 ms). -/
def witDBFacet : DBFacet :=
  { nameKey := some [some "MySQL", some "users", some "select"],
    facetKey := none,
    results := some [{ result := some (.num 1000), average := none },
                     { result := none, average := some (.num 10) },
                     { result := some (.num 5), average := none }] }

/-- The summary the code produces from `witDBFacet`. -/
def witDBOp : DBOp :=
  { datastoreType := "MySQL", table := "users", operation := "select",
    total_time_per_minute := 1000, avg_query_time_ms := 10,
    throughput_ops_per_min := 5, query_latency := true }

/-- Witness for the amended claim C5 at a concrete facet. -/
theorem claim_C5_witness :
    ∃ fo f, Resp.payload (some [witDBFacet]) = Resp.payload fo ∧ f ∈ fo.getD [] ∧
      extractDBOp f = some witDBOp ∧
      ∃ a, dbFacetAvgRaw f = .ok a ∧ (witDBOp.query_latency = true ↔ 8 < a) ∧
        witDBOp.avg_query_time_ms = round2 a := by
  refine claim_C5_latency_flag (Resp.payload (some [witDBFacet])) [witDBOp] witDBOp
    ?_ (List.mem_singleton.mpr rfl)
  with_unfolding_all rfl

/- ### Top database operations tool (server.py
`get_application_top_database_operations_details`) -/

/-- Python `len` of the dict returned by `get_top_database_operations`:
both the error shape `{error: msg}` and the success shape
`{database_operations: [...]}` are one-key dicts. -/
def pyDictLen : TopDBOutcome → Nat
  | .errorDict _ => 1
  | .ok _ => 1

/-- The success dict of the tool: the `database_operations` slot holds the
whole inner result dict (not the operation list), `count` its dict length. -/
structure TopDBDetails where
  database_operations : TopDBOutcome
  count : Nat
deriving DecidableEq, Repr

/-- Return value of the tool. -/
inductive TopDBDetailsOut
  | errorDict (msg : String)
  | success (d : TopDBDetails)
deriving DecidableEq, Repr

/-- Embedding of `get_application_top_database_operations_details`
(server.py:477-498): the inner result dict is stored as-is under
`database_operations` and `count` is the Python `len` of that dict. -/
def get_application_top_database_operations_details
    (resp : Resp (Option (List DBFacet))) : TopDBDetailsOut :=
  match get_top_database_operations resp with
  | .errorDict msg => .errorDict msg
  | .ok ops => .success { database_operations := TopDBOutcome.ok ops,
                          count := pyDictLen (TopDBOutcome.ok ops) }

/-- Claim C9 is violated by the code: on a response shaping to two summaries,
the tool nests the whole inner dict under `database_operations` instead of
the summary list, and reports `count = 1` (the key count of the inner dict)
instead of the number of summaries. -/
theorem claim_C9_count_bug :
    ∃ d, get_application_top_database_operations_details
        (Resp.payload (some [witDBFacet, witDBFacet])) = .success d ∧
      d.database_operations = TopDBOutcome.ok [witDBOp, witDBOp] ∧
      d.count = 1 ∧ d.count ≠ [witDBOp, witDBOp].length := by
  refine ⟨{ database_operations := TopDBOutcome.ok [witDBOp, witDBOp], count := 1 },
    ?_, rfl, rfl, by decide⟩
  with_unfolding_all rfl

/- ### Transaction details (client.py / server.py `get_transaction_details`) -/

/-- One entry of a transaction-details facet `results` array. -/
structure TDEntry where
  average : Option PyVal
  result : Option PyVal
deriving DecidableEq, Repr

/-- A raw facet of the transaction-details query. -/
structure TDFacet where
  name : Option PyVal
  results : Option (List TDEntry)
deriving DecidableEq, Repr

/-- The shaped transaction-details dict. -/
structure TDOut where
  transaction_name : Option PyVal
  response_time : PyVal
  throughput_per_minute : PyVal
deriving DecidableEq, Repr

/-- `result.get("facets", [])` on a decoded response: both the empty dict and
the error dict lack a `facets` key, defaulting to the empty list. -/
def respFacets (resp : Resp (Option (List TDFacet))) : List TDFacet :=
  match resp with
  | .emptyDict => []
  | .errorDict _ => []
  | .payload fo => fo.getD []

/-- Embedding of `get_transaction_details` (client.py:388-410,
server.py:388-410).  Unlike the other shaping functions it performs no
`error`-key check: it immediately indexes `facets[0]` (raising `IndexError`
on the error dict, whose `facets` default is the empty list) and then
indexes `results[0]` and `results[1]`. -/
def get_transaction_details (resp : Resp (Option (List TDFacet))) :
    Except PyErr TDOut := do
  let f ← pyIdx (respFacets resp) 0
  let e0 ← pyIdx (f.results.getD []) 0
  let e1 ← pyIdx (f.results.getD []) 1
  return { transaction_name := f.name,
           response_time := e0.average.getD (.num 0),
           throughput_per_minute := e1.result.getD (.num 0) }

/- ### APM metric data (client.py / server.py `get_app_metric_data`) -/

/-- A time-bucketed sample: `timeslice.get("from")` and
`timeslice.get("values", {})`, the values dict in insertion order. -/
structure Timeslice where
  fromTime : Option PyVal
  values : Option (List (String × PyVal))
deriving DecidableEq, Repr

/-- A raw metric: `metric["name"]` is a raising access; `metric.get("timeslices")`
is checked for truthiness. -/
structure RawMetric where
  name : Option String
  timeslices : Option (List Timeslice)
deriving DecidableEq, Repr

/-- The inner dict of a metric-data payload. -/
structure MetricData where
  metrics : Option (List RawMetric)
deriving DecidableEq, Repr

/-- A decoded metric-data payload: the optional `metric_data` key. -/
structure MetricPayload where
  metric_data : Option MetricData
deriving DecidableEq, Repr

/-- One of the at-most-3 retained top samples. -/
structure TopSample where
  value : ℚ
  timestamp : Option PyVal
deriving DecidableEq, Repr

/-- Aggregation state per metric/value-name pair while folding timeslices. -/
structure AggState where
  current_value : Option PyVal
  top_values : List TopSample
  sum : ℚ
  count : Nat
deriving DecidableEq, Repr

/-- Final per-value aggregate after the second pass (the `sum` and `count`
working keys are deleted, `avg_value` added). -/
structure ValueAgg where
  current_value : Option PyVal
  top_values : List TopSample
  avg_value : Option ℚ
deriving DecidableEq, Repr

/-- Python `float(value)` wrapped in the `try`/`except` that keeps the raw
value on conversion failure: numeric strings become numbers, everything else
passes through. -/
def tryFloat : PyVal → PyVal
  | .num q => .num q
  | .numStr q => .num q
  | .str s => .str s
  | .null => .null

/-- In-place update of an insertion-ordered dict: an existing key is updated
in place, a missing key is appended with the update applied to the default
(Python `d[k] = ...` after an `if k not in d` default insertion). -/
def updAssoc {β : Type} (k : String) (d : β) (u : β → β) :
    List (String × β) → List (String × β)
  | [] => [(k, u d)]
  | (k2, w) :: rest => if k2 = k then (k2, u w) :: rest else (k2, w) :: updAssoc k d u rest

/-- Plain dict assignment `d[k] = v`. -/
def setAssoc {β : Type} (k : String) (v : β) : List (String × β) → List (String × β)
  | [] => [(k, v)]
  | (k2, w) :: rest => if k2 = k then (k2, v) :: rest else (k2, w) :: setAssoc k v rest

/-- The empty aggregation dict inserted on first sight of a value name. -/
def emptyAgg : AggState := { current_value := none, top_values := [], sum := 0, count := 0 }

/-- Processing of one `(value_name, value)` item of a timeslice (the inner
loop at client.py:343-372): numeric values join the top-3 list (append,
stable descending sort, truncate), the running sum and count; `current_value`
is always set, rounded for numeric values, raw otherwise. -/
def updateAgg (ts : Option PyVal) (v : PyVal) (a : AggState) : AggState :=
  match tryFloat v with
  | .num q =>
      { current_value := some (.num (round2 q)),
        top_values := ((a.top_values ++ [({ value := round2 q, timestamp := ts } : TopSample)]).mergeSort
          (fun x y => decide (y.value ≤ x.value))).take 3,
        sum := a.sum + q,
        count := a.count + 1 }
  | other => { a with current_value := some other }

/-- Fold of one timeslice over the per-metric value dict. -/
def processValues (ts : Option PyVal) (vals : List (String × PyVal))
    (inner : List (String × AggState)) : List (String × AggState) :=
  vals.foldl (fun acc kv => updAssoc kv.1 emptyAgg (updateAgg ts kv.2) acc) inner

/-- Fold of all timeslices of one metric. -/
def processTimeslices (tss : List Timeslice) (inner : List (String × AggState)) :
    List (String × AggState) :=
  tss.foldl (fun acc t => processValues t.fromTime (t.values.getD []) acc) inner

/-- Processing of one raw metric: `metric["name"]` raises on a missing key;
falsy `timeslices` skips the metric before it is entered into the outer dict. -/
def processMetric (fm : List (String × List (String × AggState))) (m : RawMetric) :
    Except PyErr (List (String × List (String × AggState))) :=
  match m.name with
  | none => .error .keyError
  | some nm =>
    match m.timeslices with
    | none => .ok fm
    | some [] => .ok fm
    | some (t :: ts) => .ok (updAssoc nm [] (processTimeslices (t :: ts)) fm)

/-- Sequential fold over the metrics list, propagating a raised `KeyError`. -/
def processMetrics : List RawMetric → List (String × List (String × AggState)) →
    Except PyErr (List (String × List (String × AggState)))
  | [], fm => .ok fm
  | m :: ms, fm =>
    match processMetric fm m with
    | .error e => .error e
    | .ok fm2 => processMetrics ms fm2

/-- The second pass over one aggregate: compute `avg_value` and drop the
working keys. -/
def finalizeAgg (a : AggState) : ValueAgg :=
  { current_value := a.current_value,
    top_values := a.top_values,
    avg_value := if a.count > 0 then some (round2 (a.sum / a.count)) else none }

/-- Return value of `get_app_metric_data`: the error dict, the all-sentinel
dict mapping each requested name to "N/A (No data)", or the shaped series. -/
inductive AppMetricResult
  | errorDict (msg : String)
  | noData (entries : List (String × String))
  | series (m : List (String × List (String × ValueAgg)))
deriving DecidableEq, Repr

/-- The sentinel dict built when no metric data came back. -/
def mkNoData (names : List String) : List (String × String) :=
  names.foldl (fun acc n => setAssoc n "N/A (No data)" acc) []

/-- Python `metric_values or self.DEFAULT_METRIC_VALUES` (and the analogous
`metric_names or self.apm_metrics_available`): the fallback attributes do not
exist on the client instance, so a falsy argument raises `AttributeError`. -/
def pyOrAttr (l : Option (List String)) : Except PyErr (List String) :=
  match l with
  | none => .error .attributeError
  | some [] => .error .attributeError
  | some (x :: xs) => .ok (x :: xs)

/-- Embedding of `get_app_metric_data` (client.py:296-385, server.py:296-385).
The defaults for falsy arguments are evaluated first (raising, see
`pyOrAttr`); a falsy or `error`-keyed response yields the error dict (with
the transport message or the empty-response message interpolated); a missing
or empty `metric_data.metrics` yields the per-name sentinel dict; otherwise
the fold over metrics/timeslices/values runs, followed by the second pass
computing averages. -/
def get_app_metric_data (metric_values : Option (List String))
    (metric_names : Option (List String)) (resp : Resp MetricPayload) :
    Except PyErr AppMetricResult := do
  let _ ← pyOrAttr metric_values
  let names ← pyOrAttr metric_names
  match resp with
  | .emptyDict =>
      return .errorDict "Failed to fetch APM metrics: Empty response fetching APM metrics"
  | .errorDict msg => return .errorDict ("Failed to fetch APM metrics: " ++ msg)
  | .payload p =>
    match p.metric_data with
    | none => return .noData (mkNoData names)
    | some md =>
      match md.metrics with
      | none => return .noData (mkNoData names)
      | some [] => return .noData (mkNoData names)
      | some (m :: ms) =>
        match processMetrics (m :: ms) [] with
        | .error e => .error e
        | .ok fm =>
            return .series (fm.map (fun kv =>
              (kv.1, kv.2.map (fun kv2 => (kv2.1, finalizeAgg kv2.2)))))

/-- Counterexample to claim C6: `get_transaction_details`, given a
transport-failure input, does not check for the `error` key and does not
return an error-shaped result — it raises `IndexError` (the error dict has
no `facets`, the default is the empty list, and `facets[0]` is taken). -/
theorem claim_C6_counterexample :
    get_transaction_details (Resp.errorDict "network down")
      = .error PyErr.indexError := by
  with_unfolding_all rfl

/-- Claim C6 as amended: `get_slow_transactions`,
`get_top_database_operations` and `get_app_metric_data` each check the
transport-failure input for an `error` key before any shaping work and
return an error-shaped result without raising; `get_transaction_details`
performs no such check and instead raises `IndexError` on the same input. -/
theorem claim_C6_error_propagation (msg : String) (v n : String) (vs ns : List String) :
    get_slow_transactions (Resp.errorDict msg)
      = .errorDict "Failed to fetch slow transactions" ∧
    get_top_database_operations (Resp.errorDict msg)
      = .errorDict "Failed to fetch top database operations" ∧
    get_app_metric_data (some (v :: vs)) (some (n :: ns)) (Resp.errorDict msg)
      = .ok (.errorDict ("Failed to fetch APM metrics: " ++ msg)) ∧
    get_transaction_details (Resp.errorDict msg) = .error PyErr.indexError := by
  refine ⟨rfl, rfl, rfl, rfl⟩

/- ### Transaction breakdown (server.py `get_transaction_breakdown_segments`) -/

/-- One entry of a breakdown facet `results` array; `.get` is used with the
keys `average`, `count` and `sum` (default 0). -/
structure BEntry where
  average : Option PyVal
  count : Option PyVal
  sum : Option PyVal
deriving DecidableEq, Repr

/-- A raw facet of the breakdown query: `facet.get("name")` and
`facet.get("results", [])`. -/
structure BFacet where
  name : Option String
  results : Option (List BEntry)
deriving DecidableEq, Repr

/-- A shaped breakdown segment. -/
structure Segment where
  category : String
  segment : String
  avg_time_ms : ℚ
  avg_calls_txn : ℚ
  total_time_ms : ℚ
  percentage : ℚ
deriving DecidableEq, Repr

/-- The category prefix rule (server.py:592-596). -/
def categorize (nm : String) : String :=
  if nm.startsWith "Datastore/" then "Database"
  else if nm.startsWith "External/" then "External"
  else "Function"

/-- Outcome of one iteration of the breakdown segment loop: the facet is
silently skipped (falsy name or results), the iteration raises (short
results array or non-numeric value — this loop has no `try`), or a segment
is appended, carrying the raw (pre-rounding) total time that is added to the
running grand total. -/
inductive ExtractRes
  | skip
  | err (e : PyErr)
  | seg (s : Segment) (rawSum : ℚ)
deriving DecidableEq, Repr

/-- The loop body at server.py:581-609.  `cnt` is the (already floored)
total transaction count used as the divisor of `avg_calls_txn`.  Source
order: skip guard, `float(results[0].get("average", 0))`,
`float(results[1].get("count", 0))` (raising `IndexError` on a 1-element
array), `float(results[2].get("sum", 0))`, then the segment dict with
`percentage` initialised to 0. -/
def extractBSeg (cnt : ℚ) (f : BFacet) : ExtractRes :=
  match f.results.getD [] with
  | [] => .skip
  | e0 :: rest0 =>
    match f.name with
    | none => .skip
    | some nm =>
      if nm = "" then .skip
      else
        match pyFloat (e0.average.getD (.num 0)) with
        | .error e => .err e
        | .ok avg =>
          match rest0 with
          | [] => .err .indexError
          | e1 :: rest1 =>
            match pyFloat (e1.count.getD (.num 0)) with
            | .error e => .err e
            | .ok cc =>
              match rest1 with
              | [] => .err .indexError
              | e2 :: _ =>
                match pyFloat (e2.sum.getD (.num 0)) with
                | .error e => .err e
                | .ok st =>
                  .seg { category := categorize nm,
                         segment := nm,
                         avg_time_ms := round2 avg,
                         avg_calls_txn := round2 (cc / cnt),
                         total_time_ms := round2 st,
                         percentage := 0 } st

/-- The first pass of the breakdown shaping: build the segment list in facet
order while accumulating the raw grand total of segment total-time; a
raising iteration aborts the whole call. -/
def processFacets (cnt : ℚ) : List BFacet → Except PyErr (List Segment × ℚ)
  | [] => .ok ([], 0)
  | f :: fs =>
    match extractBSeg cnt f with
    | .skip => processFacets cnt fs
    | .err e => .error e
    | .seg s t =>
      match processFacets cnt fs with
      | .error e => .error e
      | .ok (segs, total) => .ok (s :: segs, t + total)

/-- The second pass (server.py:611-614): when the grand total is positive
each segment gets `percentage = round((total_time_ms / total_time) * 100, 2)`
computed from its already-rounded `total_time_ms` field; otherwise the
initial 0 is kept. -/
def setPercentages (total : ℚ) (segs : List Segment) : List Segment :=
  segs.map (fun s =>
    if 0 < total then { s with percentage := round2 (s.total_time_ms / total * 100) } else s)

/-- The final stable sort by `percentage` descending (server.py:617). -/
def sortByPercentage (segs : List Segment) : List Segment :=
  segs.mergeSort (fun a b => decide (b.percentage ≤ a.percentage))

/-- The shaped breakdown result dict. -/
structure BreakdownResult where
  transaction_name : Option String
  total_time_ms : ℚ
  total_transaction_count : ℚ
  segments : List Segment
deriving DecidableEq, Repr

/-- Return value of the breakdown computation: an error dict or the result. -/
inductive BDOutcome
  | errorDict (msg : String)
  | success (r : BreakdownResult)
deriving DecidableEq, Repr

/-- One entry of the transaction-total query `results` array:
`results[0].get("latest")` and `results[1].get("count", 0)`. -/
structure TotalEntry where
  latest : Option String
  count : Option ℚ
deriving DecidableEq, Repr

/-- Payload of the transaction-total query: the optional `results` key,
defaulting to `[{}]` when absent. -/
structure TotalPayload where
  results : Option (List TotalEntry)
deriving DecidableEq, Repr

/-- Outcome of the name/count extraction step (server.py:532-544). -/
inductive TotalStep
  | errResult (msg : String)
  | raise (e : PyErr)
  | ok (nm : Option String) (cnt : ℚ)
deriving DecidableEq, Repr

/-- The first phase of `get_transaction_breakdown_segments`
(server.py:532-544): transport check of the transaction-total response,
`results = result.get("results", [{}])`, the emptiness check, then
`results[0].get("latest")` and `results[1].get("count", 0)` — the latter a
raising `IndexError` when `results` has a single entry (as with the
`[{}]` default). -/
def totalExtract (resp : Resp TotalPayload) : TotalStep :=
  match resp with
  | .emptyDict => .errResult "Failed to fetch transaction count"
  | .errorDict _ => .errResult "Failed to fetch transaction count"
  | .payload p =>
    match p.results.getD [{ latest := none, count := none }] with
    | [] => .errResult "No transaction data found"
    | r0 :: rest =>
      match rest with
      | [] => .raise .indexError
      | r1 :: _ => .ok r0.latest (r1.count.getD 0)

/-- The shaping phase of `get_transaction_breakdown_segments`
(server.py:570-624) given the already-extracted transaction name and the
(already floored) count: transport check of the breakdown response, first
pass, percentage pass, sort, and the result dict (which reports the rounded
grand total and the floored count). -/
def breakdownCore (nm : Option String) (cnt : ℚ)
    (resp : Resp (Option (List BFacet))) : Except PyErr BDOutcome :=
  match resp with
  | .emptyDict => .ok (.errorDict "Failed to fetch transaction breakdown")
  | .errorDict _ => .ok (.errorDict "Failed to fetch transaction breakdown")
  | .payload facetsOpt =>
    match processFacets cnt (facetsOpt.getD []) with
    | .error e => .error e
    | .ok (segs, total) =>
      .ok (.success { transaction_name := nm,
                      total_time_ms := round2 total,
                      total_transaction_count := cnt,
                      segments := sortByPercentage (setPercentages total segs) })

/-- Embedding of the whole tool `get_transaction_breakdown_segments`
(server.py:501-624), parameterised by the two query responses: extract name
and count from the first, floor a zero count to 1 (server.py:546-548), then
run the shaping phase. -/
def get_transaction_breakdown_segments (totalResp : Resp TotalPayload)
    (bdResp : Resp (Option (List BFacet))) : Except PyErr BDOutcome :=
  match totalExtract totalResp with
  | .errResult msg => .ok (.errorDict msg)
  | .raise e => .error e
  | .ok nm c => breakdownCore nm (if c = 0 then 1 else c) bdResp

/-- The raw total-time value of a breakdown facet, read from the same slot
the loop body reads (`results[2].get("sum", 0)`); 0 when the facet would not
produce a segment. -/
def facetRawSum (f : BFacet) : ℚ :=
  match f.results.getD [] with
  | _ :: _ :: e2 :: _ =>
    match pyFloat (e2.sum.getD (.num 0)) with
    | .ok q => q
    | .error _ => 0
  | _ => 0

theorem extractBSeg_seg {cnt : ℚ} {f : BFacet} {s : Segment} {t : ℚ}
    (h : extractBSeg cnt f = .seg s t) :
    s.total_time_ms = round2 t ∧ s.percentage = 0 ∧ t = facetRawSum f := by
  unfold extractBSeg at h
  split at h
  · exact absurd h (by simp)
  · rename_i e0 rest0 hres
    split at h
    · exact absurd h (by simp)
    · rename_i nm hnm
      split at h
      · exact absurd h (by simp)
      · rename_i hempty
        split at h
        · exact absurd h (by simp)
        · rename_i avg havg
          split at h
          · exact absurd h (by simp)
          · rename_i e1 rest1
            split at h
            · exact absurd h (by simp)
            · rename_i cc hcc
              split at h
              · exact absurd h (by simp)
              · rename_i e2 tail
                split at h
                · exact absurd h (by simp)
                · rename_i st hst
                  injection h with h1 h2
                  subst h2
                  refine ⟨by rw [← h1], by rw [← h1], ?_⟩
                  unfold facetRawSum
                  rw [hres]
                  simp only [hst]

theorem processFacets_spec {cnt : ℚ} :
    ∀ {fs : List BFacet} {segs : List Segment} {total : ℚ},
    processFacets cnt fs = .ok (segs, total) →
    ∃ ts : List ℚ, total = ts.sum ∧
      segs.map Segment.total_time_ms = ts.map round2 ∧
      (∀ s ∈ segs, s.percentage = 0) ∧
      (∀ t ∈ ts, ∃ f ∈ fs, t = facetRawSum f) := by
  intro fs
  induction fs with
  | nil =>
      intro segs total h
      unfold processFacets at h
      rw [Except.ok.injEq, Prod.mk.injEq] at h
      obtain ⟨h1, h2⟩ := h
      subst h1
      subst h2
      exact ⟨[], rfl, rfl, by simp, by simp⟩
  | cons f rest ih =>
      intro segs total h
      unfold processFacets at h
      rcases he : extractBSeg cnt f with _ | e | ⟨s, t⟩
      · rw [he] at h
        obtain ⟨ts, h1, h2, h3, h4⟩ := ih h
        refine ⟨ts, h1, h2, h3, fun t2 ht2 => ?_⟩
        obtain ⟨f2, hf2, hfr⟩ := h4 t2 ht2
        exact ⟨f2, by simp [hf2], hfr⟩
      · rw [he] at h; exact absurd h (by simp)
      · rw [he] at h
        rcases hrec : processFacets cnt rest with e | ⟨segs2, total2⟩
        · rw [hrec] at h; exact absurd h (by simp)
        · rw [hrec] at h
          rw [Except.ok.injEq, Prod.mk.injEq] at h
          obtain ⟨h1, h2⟩ := h
          subst h1
          subst h2
          obtain ⟨ts, ht1, ht2, ht3, ht4⟩ := ih hrec
          obtain ⟨hs1, hs2, hs3⟩ := extractBSeg_seg he
          refine ⟨t :: ts, ?_, ?_, ?_, ?_⟩
          · rw [List.sum_cons, ht1]
          · rw [List.map_cons, List.map_cons, ht2, hs1]
          · intro s2 hs
            rcases List.mem_cons.mp hs with hh | hh
            · subst hh; exact hs2
            · exact ht3 s2 hh
          · intro t2 htm
            rcases List.mem_cons.mp htm with hh | hh
            · subst hh; exact ⟨f, by simp, hs3⟩
            · obtain ⟨f2, hf2, hfr⟩ := ht4 t2 hh
              exact ⟨f2, by simp [hf2], hfr⟩

theorem sum_map_mul_const (ts : List ℚ) (c : ℚ) :
    (ts.map (fun t => t * c)).sum = ts.sum * c := by
  induction ts with
  | nil => simp
  | cons t rest ih => simp [ih, add_mul]

theorem sum_abs_le (ts : List ℚ) (g h : ℚ → ℚ) (c : ℚ)
    (hc : ∀ t ∈ ts, |g t - h t| ≤ c) :
    |(ts.map g).sum - (ts.map h).sum| ≤ ts.length * c := by
  induction ts with
  | nil => simp
  | cons t rest ih =>
      have h1 := hc t (by simp)
      have h2 := ih (fun x hx => hc x (by simp [hx]))
      simp only [List.map_cons, List.sum_cons, List.length_cons]
      have key : g t + (rest.map g).sum - (h t + (rest.map h).sum)
          = (g t - h t) + ((rest.map g).sum - (rest.map h).sum) := by ring
      rw [key]
      calc |(g t - h t) + ((rest.map g).sum - (rest.map h).sum)|
          ≤ |g t - h t| + |(rest.map g).sum - (rest.map h).sum| := abs_add _ _
        _ ≤ (rest.length + 1 : ℕ) * c := by push_cast; linarith

theorem perc_err_bound {total t : ℚ} (hT : 0 < total) :
    |round2 (round2 t / total * 100) - t * (100 / total)| ≤ 1/200 + 1/(2*total) := by
  have h1 := round2_abs_sub (round2 t / total * 100)
  have h2 := round2_abs_sub t
  have key : round2 (round2 t / total * 100) - t * (100 / total)
      = (round2 (round2 t / total * 100) - round2 t / total * 100)
        + (round2 t - t) * (100 / total) := by
    ring
  rw [key]
  have hB : |(round2 t - t) * (100 / total)| = |round2 t - t| * (100/total) := by
    rw [abs_mul, abs_of_pos (div_pos (show (0:ℚ) < 100 by norm_num) hT)]
  have hBle : |round2 t - t| * (100/total) ≤ (1/200) * (100/total) :=
    mul_le_mul_of_nonneg_right h2 (by positivity)
  have heq : (1/200 : ℚ) * (100/total) = 1/(2*total) := by
    field_simp
    ring
  calc |(round2 (round2 t / total * 100) - round2 t / total * 100)
        + (round2 t - t) * (100 / total)|
      ≤ |round2 (round2 t / total * 100) - round2 t / total * 100|
        + |(round2 t - t) * (100 / total)| := abs_add _ _
    _ ≤ 1/200 + 1/(2*total) := by
        rw [hB]
        rw [heq] at hBle
        linarith

theorem breakdownCore_count {nm : Option String} {cnt : ℚ}
    {bd : Resp (Option (List BFacet))} {r : BreakdownResult}
    (h : breakdownCore nm cnt bd = .ok (.success r)) :
    r.total_transaction_count = cnt := by
  match bd with
  | .emptyDict => exact absurd h (by simp [breakdownCore])
  | .errorDict msg => exact absurd h (by simp [breakdownCore])
  | .payload fo =>
    simp only [breakdownCore] at h
    rcases hpf : processFacets cnt (fo.getD []) with e | ⟨segs, total⟩
    · rw [hpf] at h; exact absurd h (by simp)
    · rw [hpf] at h
      rw [Except.ok.injEq, BDOutcome.success.injEq] at h
      rw [← h]

theorem breakdownCore_spec {nm : Option String} {cnt : ℚ} {facets : List BFacet}
    {r : BreakdownResult}
    (hrun : breakdownCore nm cnt (Resp.payload (some facets)) = .ok (.success r))
    (hnn : ∀ f ∈ facets, 0 ≤ facetRawSum f) :
    ∃ total, 0 ≤ total ∧ r.total_time_ms = round2 total ∧
      (0 < total →
        (∀ s ∈ r.segments,
          s.percentage = round2 (s.total_time_ms / total * 100) ∧ 0 ≤ s.percentage) ∧
        |(r.segments.map Segment.percentage).sum - 100|
          ≤ (r.segments.length : ℚ) * (1/200 + 1/(2*total))) ∧
      (total = 0 → ∀ s ∈ r.segments, s.percentage = 0) := by
  simp only [breakdownCore, Option.getD_some] at hrun
  rcases hpf : processFacets cnt facets with e | ⟨segs, total⟩
  · rw [hpf] at hrun; exact absurd hrun (by simp)
  · rw [hpf] at hrun
    rw [Except.ok.injEq, BDOutcome.success.injEq] at hrun
    obtain ⟨ts, ht1, ht2, ht3, ht4⟩ := processFacets_spec hpf
    have htsnn : ∀ t ∈ ts, 0 ≤ t := by
      intro t ht
      obtain ⟨f, hf, hfr⟩ := ht4 t ht
      rw [hfr]
      exact hnn f hf
    have htot : 0 ≤ total := by
      rw [ht1]
      exact List.sum_nonneg htsnn
    have hsegsr : r.segments = sortByPercentage (setPercentages total segs) := by
      rw [← hrun]
    have hlen : r.segments.length = ts.length := by
      rw [hsegsr]
      unfold sortByPercentage setPercentages
      rw [List.length_mergeSort, List.length_map]
      have := congrArg List.length ht2
      simpa using this
    refine ⟨total, htot, by rw [← hrun], ?_, ?_⟩
    · intro hpos
      have hset : setPercentages total segs = segs.map
          (fun s => { s with percentage := round2 (s.total_time_ms / total * 100) }) := by
        unfold setPercentages
        simp [hpos]
      constructor
      · intro s hs
        rw [hsegsr] at hs
        unfold sortByPercentage at hs
        rw [List.mem_mergeSort, hset, List.mem_map] at hs
        obtain ⟨s0, hs0, heq⟩ := hs
        have httms : s.total_time_ms = s0.total_time_ms := by rw [← heq]
        have hperc : s.percentage = round2 (s0.total_time_ms / total * 100) := by
          rw [← heq]
        have h0le : 0 ≤ s0.total_time_ms := by
          have hmem : s0.total_time_ms ∈ segs.map Segment.total_time_ms :=
            List.mem_map_of_mem Segment.total_time_ms hs0
          rw [ht2, List.mem_map] at hmem
          obtain ⟨t, htmem, htr⟩ := hmem
          rw [← htr]
          exact round2_nonneg (htsnn t htmem)
        constructor
        · rw [hperc, httms]
        · rw [hperc]
          apply round2_nonneg
          positivity
      · have hstep1 : (r.segments.map Segment.percentage).sum
            = ((setPercentages total segs).map Segment.percentage).sum := by
          apply List.Perm.sum_eq
          apply List.Perm.map
          rw [hsegsr]
          unfold sortByPercentage
          exact List.mergeSort_perm _ _
        have hfun1 : (Segment.percentage ∘
            (fun s : Segment => { s with percentage := round2 (s.total_time_ms / total * 100) }))
            = ((fun x => round2 (x / total * 100)) ∘ Segment.total_time_ms) := by
          funext s
          rfl
        have hfun2 : ((fun x => round2 (x / total * 100)) ∘ round2)
            = (fun t => round2 (round2 t / total * 100)) := by
          funext t
          rfl
        have hstep2 : ((setPercentages total segs).map Segment.percentage)
            = ts.map (fun t => round2 (round2 t / total * 100)) := by
          rw [hset, List.map_map, hfun1, ← List.map_map, ht2, List.map_map, hfun2]
        have hsum100 : (ts.map (fun t => t * (100 / total))).sum = 100 := by
          rw [sum_map_mul_const, ← ht1]
          field_simp
        have hbound := sum_abs_le ts (fun t => round2 (round2 t / total * 100))
          (fun t => t * (100 / total)) (1/200 + 1/(2*total))
          (fun t _ => perc_err_bound hpos)
        rw [hsum100] at hbound
        rw [hstep1, hstep2, hlen]
        exact hbound
    · intro hzero
      intro s hs
      rw [hsegsr] at hs
      unfold sortByPercentage at hs
      rw [List.mem_mergeSort] at hs
      have hsetz : setPercentages total segs = segs := by
        unfold setPercentages
        subst hzero
        simp
      rw [hsetz] at hs
      exact ht3 s hs

/-- Claim C2: for every completed breakdown result, with `total` the grand
total the first pass accumulates (reported rounded as the top-level
`total_time_ms`) and all raw segment total-times non-negative: when the grand
total is positive, every segment's `percentage` equals its reported
`total_time_ms` divided by the grand total times 100 rounded to 2 decimals,
all percentages are non-negative, and their sum differs from 100 by at most
the accumulated rounding tolerance `n * (1/200 + 1/(2*total))`; when the
grand total is zero every segment's percentage is zero. -/
theorem claim_C2_percentage_normalization (totalResp : Resp TotalPayload)
    (facets : List BFacet) (r : BreakdownResult)
    (hrun : get_transaction_breakdown_segments totalResp (Resp.payload (some facets))
      = .ok (.success r))
    (hnn : ∀ f ∈ facets, 0 ≤ facetRawSum f) :
    ∃ total, 0 ≤ total ∧ r.total_time_ms = round2 total ∧
      (0 < total →
        (∀ s ∈ r.segments,
          s.percentage = round2 (s.total_time_ms / total * 100) ∧ 0 ≤ s.percentage) ∧
        |(r.segments.map Segment.percentage).sum - 100|
          ≤ (r.segments.length : ℚ) * (1/200 + 1/(2*total))) ∧
      (total = 0 → ∀ s ∈ r.segments, s.percentage = 0) := by
  unfold get_transaction_breakdown_segments at hrun
  rcases hte : totalExtract totalResp with msg | e | ⟨nm, c⟩
  · rw [hte] at hrun; exact absurd hrun (by simp)
  · rw [hte] at hrun; exact absurd hrun (by simp)
  · rw [hte] at hrun
    exact breakdownCore_spec hrun hnn

/-- Claim C4: when the transaction-total query extracts a count of zero, the
tool substitutes 1 for it — the whole run equals the shaping phase run with
divisor literally 1 (so `avg_calls_txn` in every segment is divided by that
substituted 1) — and any successful result reports that same floored 1 as
`total_transaction_count`. -/
theorem claim_C4_zero_count_floor (totalResp : Resp TotalPayload)
    (bdResp : Resp (Option (List BFacet))) (nm : Option String)
    (hzero : totalExtract totalResp = .ok nm 0) :
    get_transaction_breakdown_segments totalResp bdResp = breakdownCore nm 1 bdResp ∧
    ∀ r, get_transaction_breakdown_segments totalResp bdResp = .ok (.success r) →
      r.total_transaction_count = 1 := by
  have h1 : get_transaction_breakdown_segments totalResp bdResp
      = breakdownCore nm 1 bdResp := by
    unfold get_transaction_breakdown_segments
    rw [hzero]
    norm_num
  refine ⟨h1, fun r hr => ?_⟩
  rw [h1] at hr
  exact breakdownCore_count hr

/-- Transaction-total response with a zero count, for the C4 witness. -/
def totalRespC4W : Resp TotalPayload :=
  .payload { results := some [{ latest := some "Tx", count := none },
                              { latest := none, count := some 0 }] }

/-- Breakdown facet for the C4 witness. -/
def bFacetC4W : BFacet :=
  { name := some "Datastore/ops",
    results := some [{ average := some (.num 2), count := none, sum := none },
                     { average := none, count := some (.num 4), sum := none },
                     { average := none, count := none, sum := some (.num 50) }] }

/-- The breakdown result the code produces for the C4 witness inputs. -/
def rC4W : BreakdownResult :=
  { transaction_name := some "Tx", total_time_ms := 50, total_transaction_count := 1,
    segments := [{ category := "Database", segment := "Datastore/ops", avg_time_ms := 2,
                   avg_calls_txn := 4, total_time_ms := 50, percentage := 100 }] }

/-- Witness for claim C4 at a concrete zero-count response. -/
theorem claim_C4_witness :
    get_transaction_breakdown_segments totalRespC4W (Resp.payload (some [bFacetC4W]))
      = breakdownCore (some "Tx") 1 (Resp.payload (some [bFacetC4W])) ∧
    rC4W.total_transaction_count = 1 := by
  have h := claim_C4_zero_count_floor totalRespC4W (Resp.payload (some [bFacetC4W]))
    (some "Tx") (by with_unfolding_all rfl)
  refine ⟨h.1, h.2 rC4W ?_⟩
  with_unfolding_all rfl

/-- Transaction-total response with count 5, for the C2 witness. -/
def totalRespC2W : Resp TotalPayload :=
  .payload { results := some [{ latest := some "Tx", count := none },
                              { latest := none, count := some 5 }] }

/-- First breakdown facet of the C2 witness (raw total time 80). -/
def fC2a : BFacet :=
  { name := some "A",
    results := some [{ average := some (.num 8), count := none, sum := none },
                     { average := none, count := some (.num 2), sum := none },
                     { average := none, count := none, sum := some (.num 80) }] }

/-- Second breakdown facet of the C2 witness (raw total time 20). -/
def fC2b : BFacet :=
  { name := some "External/api",
    results := some [{ average := some (.num 2), count := none, sum := none },
                     { average := none, count := some (.num 1), sum := none },
                     { average := none, count := none, sum := some (.num 20) }] }

/-- The breakdown result the code produces for the C2 witness inputs. -/
def rC2W : BreakdownResult :=
  { transaction_name := some "Tx", total_time_ms := 100, total_transaction_count := 5,
    segments := [
      { category := "Function", segment := "A", avg_time_ms := 8,
        avg_calls_txn := 2/5, total_time_ms := 80, percentage := 80 },
      { category := "External", segment := "External/api", avg_time_ms := 2,
        avg_calls_txn := 1/5, total_time_ms := 20, percentage := 20 }] }

/-- Witness for claim C2 at a concrete two-segment breakdown. -/
theorem claim_C2_witness :
    ∃ total, 0 ≤ total ∧ rC2W.total_time_ms = round2 total ∧
      (0 < total →
        (∀ s ∈ rC2W.segments,
          s.percentage = round2 (s.total_time_ms / total * 100) ∧ 0 ≤ s.percentage) ∧
        |(rC2W.segments.map Segment.percentage).sum - 100|
          ≤ (rC2W.segments.length : ℚ) * (1/200 + 1/(2*total))) ∧
      (total = 0 → ∀ s ∈ rC2W.segments, s.percentage = 0) := by
  apply claim_C2_percentage_normalization totalRespC2W [fC2a, fC2b] rC2W
  · with_unfolding_all rfl
  · intro f hf
    rcases List.mem_cons.mp hf with h | h
    · subst h
      with_unfolding_all decide
    · rcases List.mem_cons.mp h with h2 | h2
      · subst h2
        with_unfolding_all decide
      · exact absurd h2 (by simp)

/- ### Slow transactions tool (server.py
`get_application_slow_transactions_details`) -/

/-- The Python value bound to `breakdown` in the tool loop.  The tool calls
`get_transaction_breakdown_segments(app_id, txn_name, time_range_minutes)` —
an `async def` (still one after `@mcp.tool()` decoration) invoked without
`await` — so the call does not run the breakdown body and evaluates to a
coroutine object; a plain dict (`dictObj`) is what the loop body was written
to expect. -/
inductive PyObj
  | coroutine
  | dictObj (err : Option String) (segments : Option (List Segment))
      (total_time_ms : Option ℚ)
deriving DecidableEq, Repr

/-- Python membership test `k in obj`: dict membership checks the keys, but
on a coroutine object the test raises `TypeError` (argument of type
coroutine is not iterable). -/
def pyContains (k : String) : PyObj → Except PyErr Bool
  | .coroutine => .error .typeError
  | .dictObj err segs tot =>
      .ok (if k = "error" then err.isSome
           else if k = "segments" then segs.isSome
           else if k = "total_time_ms" then tot.isSome else false)

/-- `breakdown.get("segments", [])`; raises `AttributeError` on a coroutine. -/
def pyObjSegments : PyObj → Except PyErr (List Segment)
  | .coroutine => .error .attributeError
  | .dictObj _ segs _ => .ok (segs.getD [])

/-- `breakdown.get("total_time_ms", 0)`; raises `AttributeError` on a coroutine. -/
def pyObjTotal : PyObj → Except PyErr ℚ
  | .coroutine => .error .attributeError
  | .dictObj _ _ tot => .ok (tot.getD 0)

/-- The value produced by the unawaited breakdown call in each iteration. -/
def unawaitedBreakdownCall : PyObj := .coroutine

/-- The shaped `transaction` sub-dict of one combined entry
(server.py:458-466). -/
structure TxnBrief where
  name : PyVal
  avg_duration : String
  min_duration : String
  max_duration : String
  call_count : ℤ
  error_rate : ℚ
  throughput : ℚ
deriving DecidableEq, Repr

/-- One combined entry of the tool result (server.py:457-469). -/
structure CombinedEntry where
  transaction : TxnBrief
  breakdown : List Segment
  total_duration_ms : ℚ
deriving DecidableEq, Repr

/-- The success dict of the tool (server.py:471-474). -/
structure SlowDetails where
  transactions : List CombinedEntry
  count : Nat
deriving DecidableEq, Repr

/-- Return value of the tool. -/
inductive SlowDetailsOut
  | errorDict (msg : String)
  | success (d : SlowDetails)
deriving DecidableEq, Repr

/-- The per-transaction loop (server.py:449-469): bind `breakdown` to the
(unawaited) breakdown call, test `"error" in breakdown` (skipping the
transaction on an error dict), otherwise append the combined entry. -/
def slowDetailsLoop : List TxnSummary → Except PyErr (List CombinedEntry)
  | [] => .ok []
  | txn :: rest =>
    match pyContains "error" unawaitedBreakdownCall with
    | .error e => .error e
    | .ok true => slowDetailsLoop rest
    | .ok false =>
      match pyObjSegments unawaitedBreakdownCall, pyObjTotal unawaitedBreakdownCall with
      | .ok segs, .ok tot =>
        match slowDetailsLoop rest with
        | .error e => .error e
        | .ok tail =>
            .ok ({ transaction := { name := txn.name, avg_duration := txn.avg_duration,
                                    min_duration := txn.min_duration,
                                    max_duration := txn.max_duration,
                                    call_count := txn.call_count,
                                    error_rate := txn.error_rate,
                                    throughput := txn.throughput },
                   breakdown := segs, total_duration_ms := tot } :: tail)
      | .error e, _ => .error e
      | _, .error e => .error e

/-- Embedding of `get_application_slow_transactions_details`
(server.py:436-474), parameterised by the already-shaped slow-transactions
result: an error dict is returned as `{error: ...}`; otherwise the loop runs
and on success `count` is the length of the combined list. -/
def get_application_slow_transactions_details (slowResult : SlowOutcome) :
    Except PyErr SlowDetailsOut :=
  match slowResult with
  | .errorDict msg => .ok (.errorDict msg)
  | .transactions ts =>
    match slowDetailsLoop ts with
    | .error e => .error e
    | .ok combined => .ok (.success { transactions := combined,
                                      count := combined.length })

/-- Claim C3 is violated by the code: for every non-empty slow-transaction
list the tool raises `TypeError` in the first loop iteration, because the
async breakdown tool is invoked without `await` and the `"error" in
breakdown` membership test is applied to the resulting coroutine object —
no breakdown is ever computed, no transaction is dropped-and-continued, and
the call does not succeed. -/
theorem claim_C3_missing_await (ts : List TxnSummary) (hne : ts ≠ []) :
    get_application_slow_transactions_details (.transactions ts)
      = .error PyErr.typeError := by
  match ts with
  | [] => exact absurd rfl hne
  | t :: rest => rfl

/-- A concrete slow-transaction summary for the C3 witness. -/
def txnSummaryW : TxnSummary :=
  { name := .str "T1", total_duration := 1, avg_duration := "2 ms",
    min_duration := "2 ms", max_duration := "2 ms", call_count := 3,
    error_rate := 2, throughput := 2 }

/-- Witness for claim C3 at a one-transaction list. -/
theorem claim_C3_witness :
    get_application_slow_transactions_details (.transactions [txnSummaryW])
      = .error PyErr.typeError :=
  claim_C3_missing_await [txnSummaryW] (by simp)

/- ### Log queries (client.py `query_logs`) -/

/-- The `nrql` node of a GraphQL response: the optional `results` list; a
log record is modelled as its key/value pairs, values already rendered by
the Python format expression. -/
structure NrqlNode where
  results : Option (List (List (String × String)))
deriving DecidableEq, Repr

/-- The `account` node. -/
structure AccountNode where
  nrql : Option NrqlNode
deriving DecidableEq, Repr

/-- The `actor` node. -/
structure ActorNode where
  account : Option AccountNode
deriving DecidableEq, Repr

/-- The `data` node. -/
structure DataNode where
  actor : Option ActorNode
deriving DecidableEq, Repr

/-- A decoded GraphQL body: the optional `errors` key (its value rendered as
a string, present whenever the key is) and the optional `data` key. -/
structure GraphBody where
  errors : Option String
  data : Option DataNode
deriving DecidableEq, Repr

/-- Outcome of the HTTP POST inside the `try` block: any raised exception
(connection failure, non-2xx status via `raise_for_status`, undecodable
body), or a decoded body. -/
inductive HttpOutcome
  | raised (msg : String)
  | ok (body : GraphBody)
deriving DecidableEq, Repr

/-- One formatted log record: `"---\n"` followed by the newline-joined
`"k: v"` lines. -/
def formatLog (log : List (String × String)) : String :=
  "---\n" ++ String.intercalate "\n" (log.map (fun kv => kv.1 ++ ": " ++ kv.2))

/-- Embedding of `query_logs` (client.py:412-470).  Every collaborator
outcome maps to a string: a raised exception is caught by the enclosing
`except` and rendered; a present `errors` key, then missing `data`,
`account` (also when `actor` is missing, via the `{}` default) and `nrql`
fields each short-circuit to a descriptive error string; an empty `results`
list yields "No logs found"; otherwise the joined formatted records. -/
def query_logs (out : HttpOutcome) : String :=
  match out with
  | .raised msg => "Error querying logs: " ++ msg
  | .ok body =>
    match body.errors with
    | some es => "GraphQL errors: " ++ es
    | none =>
      match body.data with
      | none => "Error: No \x27data\x27 field in response"
      | some d =>
        match d.actor with
        | none => "Error: No \x27account\x27 field in \x27actor\x27"
        | some a =>
          match a.account with
          | none => "Error: No \x27account\x27 field in \x27actor\x27"
          | some acct =>
            match acct.nrql with
            | none => "Error: No \x27nrql\x27 field in \x27account\x27"
            | some nr =>
              match (nr.results.getD []).map formatLog with
              | [] => "No logs found"
              | f :: fs => String.intercalate "\n" (f :: fs)

/-- Claim C10: `query_logs` is total — by construction it returns a string on
every modelled collaborator outcome — and each failure shape produces its
descriptive error string: a raised exception, a GraphQL `errors` field, a
missing `data`, `account` (or `actor`) or `nrql` field, and an empty results
list produces "No logs found". -/
theorem claim_C10_query_logs_total (msg es : String) (d : Option DataNode) :
    query_logs (.raised msg) = "Error querying logs: " ++ msg ∧
    query_logs (.ok { errors := some es, data := d }) = "GraphQL errors: " ++ es ∧
    query_logs (.ok { errors := none, data := none })
      = "Error: No \x27data\x27 field in response" ∧
    query_logs (.ok { errors := none, data := some { actor := none } })
      = "Error: No \x27account\x27 field in \x27actor\x27" ∧
    query_logs (.ok { errors := none, data := some { actor := some { account := none } } })
      = "Error: No \x27account\x27 field in \x27actor\x27" ∧
    query_logs (.ok { errors := none, data := some { actor := some { account := some { nrql := none } } } })
      = "Error: No \x27nrql\x27 field in \x27account\x27" ∧
    query_logs (.ok { errors := none, data := some { actor := some { account := some { nrql := some { results := some [] } } } } })
      = "No logs found" ∧
    query_logs (.ok { errors := none, data := some { actor := some { account := some { nrql := some { results := none } } } } })
      = "No logs found" := by
  exact ⟨rfl, rfl, rfl, rfl, rfl, rfl, rfl, rfl⟩

/-- Witness for claim C10 at concrete inputs. -/
theorem claim_C10_witness :
    query_logs (.raised "boom") = "Error querying logs: " ++ "boom" ∧
    query_logs (.ok { errors := some "bad nrql", data := none })
      = "GraphQL errors: " ++ "bad nrql" := by
  have h := claim_C10_query_logs_total "boom" "bad nrql" none
  exact ⟨h.1, h.2.1⟩
